import Mathlib

/-!
Shallow embedding of the bloblo caching reverse proxy.

Source files embedded:
- bloblo_proxy.go: the `BlobloProxy` handler (`ServeHTTP`, `isCacheableUri`,
  the digest extraction, the probe / hit / miss orchestration).
- object_storage_cache.go: `S3ObjectStorageCache.isBlobInCache`,
  `uploadBlob` (the error-translation logic and the key discipline).

External collaborators (the AWS S3 backend, the Go HTTP client, the
fallback reverse proxy) are modelled at their interface boundary: the
handler is parameterised over the outcomes they can produce, exactly the
way the Go code consumes them through `ObjectStorageCache`,
`http.DefaultClient.Do` and `http.Handler`.
-/

namespace Bloblo

/-- Go `error` values as observed by this code base: either a smithy API
error carrying an error code (what `errors.As(err, &ae)` with
`ae smithy.APIError` extracts, `ae.ErrorCode()` being the code), or any
other non-nil error. -/
inductive GoError where
  | apiError (code : String)
  | otherError (msg : String)
deriving DecidableEq, Repr

/-- Embedding of Go `strings.Split` for a single-character separator,
by structural recursion on the character list (so that it reduces in the
kernel). `strings.Split("", sep) = [""]` and a leading separator yields a
leading empty segment, as in Go. -/
def splitListOn (sep : Char) : List Char → List (List Char)
  | [] => [[]]
  | c :: cs =>
    match splitListOn sep cs with
    | [] => [[c]]
    | r :: rs => if c = sep then [] :: (r :: rs) else (c :: r) :: rs

/-- Go `strings.Split(s, sep)` with a one-character separator. -/
def goSplit (s : String) (sep : Char) : List String :=
  (splitListOn sep s.toList).map (fun cs => String.mk cs)

/-- An inbound HTTP request as the handler inspects it: its method and its
raw request URI (`req.Method`, `req.RequestURI`). -/
structure HttpRequest where
  method : String
  requestURI : String
deriving DecidableEq, Repr

/-- The cacheability predicate installed by `NewBlobloProxy`
(bloblo_proxy.go): split the request URI on the path separator, require
more than two segments and the second-to-last segment to equal "blobs". -/
def isCacheableUri (requestURI : String) : Bool :=
  let pathElements := goSplit requestURI '/'
  decide (pathElements.length > 2) &&
    (pathElements.getD (pathElements.length - 2) "" == "blobs")

/-- The interception guard of `ServeHTTP`:
`req.Method == http.MethodGet && blo.isCacheableUri(req.RequestURI)`. -/
def isCandidate (req : HttpRequest) : Bool :=
  req.method == "GET" && isCacheableUri req.requestURI

/-- The blob digest the handler extracts:
`pathElements[len(pathElements)-1]`, the final segment of the split
request URI. -/
def blobDigestOf (requestURI : String) : String :=
  let pathElements := goSplit requestURI '/'
  pathElements.getD (pathElements.length - 1) ""

/-- An upstream HTTP response as returned by `http.DefaultClient.Do`:
status code, headers and body bytes. -/
structure UpstreamResponse where
  status : Nat
  headers : List (String × String)
  body : List Nat
deriving DecidableEq, Repr

/-- The state of the client's `http.ResponseWriter`: the status written so
far (none until the first `WriteHeader` or `Write`), the headers set by
handler code, and the body bytes written. -/
structure ResponseWriter where
  status : Option Nat
  headers : List (String × String)
  body : List Nat
deriving DecidableEq, Repr

/-- Go `w.WriteHeader(code)`: records the status code; later calls after a
status has been written are ignored. -/
def ResponseWriter.writeHeader (w : ResponseWriter) (code : Nat) : ResponseWriter :=
  match w.status with
  | some _ => w
  | none => { w with status := some code }

/-- Go `w.Write(bs)`: an implicit `WriteHeader(200)` if no status was
written yet, then the bytes are appended to the response body. -/
def ResponseWriter.write (w : ResponseWriter) (bs : List Nat) : ResponseWriter :=
  let w := w.writeHeader 200
  { w with body := w.body ++ bs }

/-- The status the client observes: Go's `net/http` server sends `200 OK`
when the handler returns without ever writing a status. -/
def ResponseWriter.finalStatus (w : ResponseWriter) : Nat :=
  w.status.getD 200

/-- The fresh response writer handed to `ServeHTTP`. -/
def initialWriter : ResponseWriter := { status := none, headers := [], body := [] }

/-- Go `http.Redirect(w, req, url, code)`: sets the `Location` header to
the given URL and writes the status code. (The short hypertext body
`net/http` appends for GET requests is elided; no claim concerns it.) -/
def httpRedirect (w : ResponseWriter) (url : String) (code : Nat) : ResponseWriter :=
  ({ w with headers := w.headers ++ [("Location", url)] }).writeHeader code

/-- The response the fallback reverse proxy would relay for this request:
the upstream's status, headers and body as `httputil.ReverseProxy`
reproduces them. The core treats the fallback as an opaque handler. -/
structure FallbackResponse where
  status : Nat
  headers : List (String × String)
  body : List Nat
deriving DecidableEq, Repr

/-- Delegation `blo.fallbackReverseProxy.ServeHTTP(w, req)`: the fallback
writes its headers, status and body through the same writer. -/
def serveFallback (w : ResponseWriter) (fb : FallbackResponse) : ResponseWriter :=
  (({ w with headers := w.headers ++ fb.headers }).writeHeader fb.status).write fb.body

/-- One cache-interface call made by the handler, with the digest it was
keyed on (`isBlobInCache`, `getPresignedUrl`, `uploadBlob`). -/
inductive CacheEvent where
  | existsCheck (digest : String)
  | presignOp (digest : String)
  | store (digest : String) (bytes : List Nat)
deriving DecidableEq, Repr

/-- The digest a cache call was keyed on. -/
def CacheEvent.digest : CacheEvent → String
  | .existsCheck d => d
  | .presignOp d => d
  | .store d _ => d

/-- Whether an event is a store (upload) call. -/
def CacheEvent.isStore : CacheEvent → Bool
  | .store _ _ => true
  | _ => false

/-- Whether an event is a presign call. -/
def CacheEvent.isPresign : CacheEvent → Bool
  | .presignOp _ => true
  | _ => false

/-- Outcomes of the external collaborators for one request, as the handler
consumes them: the HEAD probe result (`none` = transport error, otherwise
the status code), the miss-path GET result, the `ObjectStorageCache`
results (`isBlobInCache` returning Go's `(bool, error)` pair,
`getPresignedUrl` returning `(string, error)`, `uploadBlob` succeeding or
not), and what the fallback proxy would answer. -/
structure Env where
  probeResult : Option Nat
  fetchResult : Option UpstreamResponse
  existsResult : Bool × Option GoError
  presignResult : Except GoError String
  uploadOk : Bool
  fallbackResponse : FallbackResponse
deriving Repr

/-- What one `ServeHTTP` invocation produced: the writer's final state,
the cache-interface calls made in order, whether the fallback proxy was
delegated to, and the `logger.Error` messages emitted. -/
structure HandlerResult where
  writer : ResponseWriter
  events : List CacheEvent
  usedFallback : Bool
  errorLogs : List String
deriving DecidableEq, Repr

/-- Embedding of `BlobloProxy.ServeHTTP` (bloblo_proxy.go). Control flow
is translated branch for branch: the interception guard; the HEAD probe
(transport error → `WriteHeader(500)` and return); on probe status 200 the
`isBlobInCache` call, where a non-nil error only logs and falls through to
the fallback delegation at the bottom of the function; a hit presigns and
redirects with 302, a presign error delegating to the fallback; a miss
issues the GET (transport error → `WriteHeader(500)` and return), then
`uploadBlob` consumes the body through `io.TeeReader(response.Body, w)`,
so each byte read by the upload is also written to the client, an upload
error being logged only. All non-intercepted requests reach the fallback
delegation at the bottom. -/
def serveHTTP (env : Env) (req : HttpRequest) : HandlerResult :=
  let w := initialWriter
  if isCandidate req then
    let d := blobDigestOf req.requestURI
    match env.probeResult with
    | none =>
        { writer := w.writeHeader 500, events := [], usedFallback := false,
          errorLogs := ["Failed to reach the upstream"] }
    | some statusCode =>
      if statusCode = 200 then
        match env.existsResult with
        | (_, some _) =>
            { writer := serveFallback w env.fallbackResponse,
              events := [CacheEvent.existsCheck d], usedFallback := true,
              errorLogs := ["Failed to check if object is in cache"] }
        | (true, none) =>
            (match env.presignResult with
             | Except.error _ =>
                 { writer := serveFallback w env.fallbackResponse,
                   events := [CacheEvent.existsCheck d, CacheEvent.presignOp d],
                   usedFallback := true,
                   errorLogs := ["Failed to get a presign url"] }
             | Except.ok presignedUrl =>
                 { writer := httpRedirect w presignedUrl 302,
                   events := [CacheEvent.existsCheck d, CacheEvent.presignOp d],
                   usedFallback := false, errorLogs := [] })
        | (false, none) =>
            match env.fetchResult with
            | none =>
                { writer := w.writeHeader 500,
                  events := [CacheEvent.existsCheck d], usedFallback := false,
                  errorLogs := ["Failed to reach the upstream"] }
            | some resp =>
                { writer := w.write resp.body,
                  events := [CacheEvent.existsCheck d, CacheEvent.store d resp.body],
                  usedFallback := false,
                  errorLogs := if env.uploadOk then [] else ["Error uploading blob"] }
      else
        { writer := serveFallback w env.fallbackResponse, events := [],
          usedFallback := true, errorLogs := [] }
  else
    { writer := serveFallback w env.fallbackResponse, events := [],
      usedFallback := true, errorLogs := [] }

/-! Object storage cache (object_storage_cache.go). -/

/-- Error-translation logic of `S3ObjectStorageCache.isBlobInCache`,
as a function of the `HeadObject` call's error result: a nil error yields
`(true, nil)`; a non-nil error yields `isInCache = false`, and when
`errors.As(err, &ae)` exposes a smithy API error whose `ErrorCode()` is
"NotFound" the error is replaced by nil, any other error being returned
unchanged. -/
def isBlobInCacheResult (err : Option GoError) : Bool × Option GoError :=
  match err with
  | none => (true, none)
  | some e =>
    match e with
    | .apiError code => if code = "NotFound" then (false, none) else (false, some e)
    | .otherError _ => (false, some e)

/-- Whether a Go error is a smithy API error with code "NotFound". -/
def GoError.isNotFound : GoError → Bool
  | .apiError code => code == "NotFound"
  | .otherError _ => false

/-- The S3 bucket's contents, as the abstract object-store protocol the
cache consumes sees them: the set of keys currently stored. Modelled at
the interface boundary described by the design (existence check by key,
content upload by key). -/
structure S3State where
  keys : List String
deriving DecidableEq, Repr

/-- S3 `HeadObject` against a well-behaved backend: succeeds exactly when
the key is stored, otherwise reports a "NotFound" API error. -/
def S3State.headObject (s : S3State) (key : String) : Option GoError :=
  if key ∈ s.keys then none else some (GoError.apiError "NotFound")

/-- S3 upload of a completed object: the key becomes stored. -/
def S3State.putObject (s : S3State) (key : String) : S3State :=
  { keys := key :: s.keys }

/-- Embedding of `S3ObjectStorageCache.isBlobInCache` over a backend
state: the `HeadObject` call on `(bucket, blobDigest)` followed by the
error translation above. -/
def isBlobInCache (s : S3State) (blobDigest : String) : Bool × Option GoError :=
  isBlobInCacheResult (s.headObject blobDigest)

/-- Embedding of `S3ObjectStorageCache.uploadBlob` over a backend state:
`s3Uploader.Upload` keyed on exactly `blobDigest`; the backend either
accepts the object (the key becomes stored, nil error) or rejects it (the
state is unchanged and the error is returned). -/
def uploadBlob (s : S3State) (blobDigest : String) (accepted : Bool) :
    S3State × Option GoError :=
  if accepted then (s.putObject blobDigest, none)
  else (s, some (GoError.otherError "upload failed"))

/-! Spec-side definitions, written from the specification's words, to be
compared with the code-side definitions above. -/

/-- Spec wording of the classification rule: the method is GET, the
request path split on the path separator has at least three segments, and
the second-to-last segment equals the fixed marker "blobs". -/
def cacheCandidateSpec (req : HttpRequest) : Prop :=
  req.method = "GET" ∧
    3 ≤ (goSplit req.requestURI '/').length ∧
    (goSplit req.requestURI '/').getD ((goSplit req.requestURI '/').length - 2) ""
      = "blobs"

/-- Spec wording of the digest: the final segment of the split request
path. -/
def specBlobDigest (requestURI : String) : String :=
  (goSplit requestURI '/').getD ((goSplit requestURI '/').length - 1) ""

/-! Concrete sample inputs used by witnesses and counterexamples. -/

/-- Sample cacheable request, shaped like the spec's example. -/
def reqEx : HttpRequest := { method := "GET", requestURI := "/v2/r/blobs/d1" }

/-- Sample fallback-proxy response. -/
def fbEx : FallbackResponse :=
  { status := 404, headers := [("Content-Type", "text/plain")], body := [78, 70] }

/-- Sample upstream GET response whose status and headers differ from the
writer defaults. -/
def respEx : UpstreamResponse :=
  { status := 404, headers := [("X-Foo", "bar")], body := [104, 105] }

/-- Sample environment: probe 200, cache miss, upstream fetch succeeds. -/
def envEx : Env :=
  { probeResult := some 200, fetchResult := some respEx,
    existsResult := (false, none),
    presignResult := Except.ok "http://store.example/a_presigned_url",
    uploadOk := true, fallbackResponse := fbEx }

/-- Sample environment whose cache existence check fails with a transient
backend error. -/
def envC4 : Env :=
  { envEx with existsResult := (false, some (GoError.otherError "connection reset")) }

/-- Sample environment: cache hit with a working presigner. -/
def envHit : Env := { envEx with existsResult := (true, none) }

/-- Sample environment: cache hit but the presign operation fails. -/
def envPresignErr : Env :=
  { envEx with
    existsResult := (true, none)
    presignResult := Except.error (GoError.otherError "sign fail") }

/-- Sample environment: authorization probe answers 401. -/
def envProbe401 : Env := { envEx with probeResult := some 401 }

/-- Sample environment: the upstream is unreachable at the probe. -/
def envProbeDown : Env := { envEx with probeResult := none }

/-! Claims. -/

/-- Claim C3 (confirmed): a request is classified as a candidate for cache
interception if and only if its method is GET, its path split on the path
separator has at least three segments, and the second-to-last segment
equals "blobs"; and every cache operation the handler performs is keyed on
the final segment of the split request path. -/
theorem classification_and_digest (req : HttpRequest) :
    (isCandidate req = true ↔ cacheCandidateSpec req) ∧
    ∀ env : Env, ((serveHTTP env req).events.all
        fun e => e.digest == specBlobDigest req.requestURI) = true := by
  constructor
  · unfold isCandidate isCacheableUri cacheCandidateSpec
    simp only [Bool.and_eq_true, beq_iff_eq, decide_eq_true_eq, gt_iff_lt]
    constructor
    · rintro ⟨hm, hl, hb⟩
      exact ⟨hm, by omega, hb⟩
    · rintro ⟨hm, hl, hb⟩
      exact ⟨hm, by omega, hb⟩
  · intro env
    obtain ⟨probe, fetch, ex, ps, up, fb⟩ := env
    obtain ⟨b, oe⟩ := ex
    by_cases hc : isCandidate req = true
    · cases probe with
      | none =>
          simp [serveHTTP, hc, CacheEvent.digest]
      | some s =>
          by_cases hs : s = 200
          · subst hs
            cases oe with
            | some e =>
                simp [serveHTTP, hc, CacheEvent.digest, specBlobDigest, blobDigestOf]
            | none =>
                cases b with
                | true =>
                    cases ps <;>
                      simp [serveHTTP, hc, CacheEvent.digest, specBlobDigest, blobDigestOf]
                | false =>
                    cases fetch <;>
                      simp [serveHTTP, hc, CacheEvent.digest, specBlobDigest, blobDigestOf]
          · simp [serveHTTP, hc, hs, CacheEvent.digest]
    · simp [serveHTTP, hc, CacheEvent.digest]

/-- Claim C8 (confirmed): the cache's existence check returns
`(false, nil)` on a backend "NotFound" condition, returns `false` together
with the backend error unchanged on any other error, and returns `true`
exactly when the backend call succeeds. -/
theorem is_blob_in_cache_error_translation :
    isBlobInCacheResult none = (true, none) ∧
    (∀ e : GoError, isBlobInCacheResult (some e) =
        if e.isNotFound then (false, none) else (false, some e)) ∧
    (∀ r : Option GoError, ((isBlobInCacheResult r).1 = true ↔ r = none)) := by
  refine ⟨rfl, ?_, ?_⟩
  · intro e
    cases e with
    | apiError code =>
        by_cases h : code = "NotFound" <;>
          simp [isBlobInCacheResult, GoError.isNotFound, h]
    | otherError msg =>
        simp [isBlobInCacheResult, GoError.isNotFound]
  · intro r
    cases r with
    | none => simp [isBlobInCacheResult]
    | some e =>
        cases e with
        | apiError code =>
            by_cases h : code = "NotFound" <;> simp [isBlobInCacheResult, h]
        | otherError msg => simp [isBlobInCacheResult]

/-- Claim C5 (confirmed): when a miss-path upload for a digest completes
successfully, a subsequent existence check for the same digest returns
`(true, nil)` — the upload populates the cache under exactly that key. -/
theorem upload_then_in_cache (s s' : S3State) (d : String) (accepted : Bool)
    (h : uploadBlob s d accepted = (s', none)) :
    isBlobInCache s' d = (true, none) := by
  cases accepted with
  | false => simp [uploadBlob] at h
  | true =>
      simp only [uploadBlob, if_pos] at h
      obtain ⟨hs, -⟩ := Prod.mk.injEq .. ▸ h
      subst hs
      simp [isBlobInCache, S3State.headObject, S3State.putObject,
        isBlobInCacheResult, List.mem_cons]

/-- Witness for C5 at a concrete store state and digest. -/
theorem upload_then_in_cache_witness :
    uploadBlob ⟨[]⟩ "sha256:d1" true = (⟨["sha256:d1"]⟩, none) ∧
      isBlobInCache ⟨["sha256:d1"]⟩ "sha256:d1" = (true, none) :=
  ⟨by decide, upload_then_in_cache ⟨[]⟩ ⟨["sha256:d1"]⟩ "sha256:d1" true (by decide)⟩

/-- Claim C1 (counterexample): on the miss path the upstream response's
status and headers are not relayed to the client — with an upstream GET
response of status 404 and a nontrivial header set, the client-visible
status is the writer default 200 and the handler sets no headers, although
the body is relayed byte-identically. -/
theorem miss_path_status_not_relayed_cex :
    envEx.fetchResult = some respEx ∧
    (serveHTTP envEx reqEx).writer.body = respEx.body ∧
    ¬ ((serveHTTP envEx reqEx).writer.finalStatus = respEx.status ∧
       (serveHTTP envEx reqEx).writer.headers = respEx.headers) := by decide

/-- Claim C1 (corrected): on the miss path (probe 200, cache reports the
digest absent) the client-received body is byte-identical to the upstream
response body, but the upstream status and headers are not copied: the
client-visible status is the writer default 200 and the handler sets no
response headers; the fallback proxy is not involved. -/
theorem miss_path_relays_body (env : Env) (req : HttpRequest) (resp : UpstreamResponse)
    (hc : isCandidate req = true) (hp : env.probeResult = some 200)
    (he : env.existsResult = (false, none)) (hf : env.fetchResult = some resp) :
    (serveHTTP env req).writer.body = resp.body ∧
      (serveHTTP env req).writer.finalStatus = 200 ∧
      (serveHTTP env req).writer.headers = [] ∧
      (serveHTTP env req).usedFallback = false := by
  simp [serveHTTP, hc, hp, he, hf, initialWriter, ResponseWriter.write,
    ResponseWriter.writeHeader, ResponseWriter.finalStatus]

/-- Witness for the corrected C1 at a concrete request and environment. -/
theorem miss_path_relays_body_witness :
    (serveHTTP envEx reqEx).writer.body = respEx.body ∧
      (serveHTTP envEx reqEx).writer.finalStatus = 200 ∧
      (serveHTTP envEx reqEx).writer.headers = [] ∧
      (serveHTTP envEx reqEx).usedFallback = false :=
  miss_path_relays_body envEx reqEx respEx (by decide) (by decide) (by decide) (by decide)

/-- Claim C2 (confirmed): on the hit path (probe 200, cache reports the
digest present with nil error) with a successful presign, the handler
answers 302 Found with the `Location` header set to the presigned URL
exactly as returned. -/
theorem hit_path_redirects (env : Env) (req : HttpRequest) (url : String)
    (hc : isCandidate req = true) (hp : env.probeResult = some 200)
    (he : env.existsResult = (true, none)) (hs : env.presignResult = Except.ok url) :
    (serveHTTP env req).writer.status = some 302 ∧
      (serveHTTP env req).writer.headers = [("Location", url)] ∧
      (serveHTTP env req).usedFallback = false := by
  simp [serveHTTP, hc, hp, he, hs, httpRedirect, initialWriter,
    ResponseWriter.writeHeader]

/-- Witness for C2 at a concrete request and environment. -/
theorem hit_path_redirects_witness :
    (serveHTTP envHit reqEx).writer.status = some 302 ∧
      (serveHTTP envHit reqEx).writer.headers =
        [("Location", "http://store.example/a_presigned_url")] ∧
      (serveHTTP envHit reqEx).usedFallback = false :=
  hit_path_redirects envHit reqEx "http://store.example/a_presigned_url"
    (by decide) (by decide) (by decide) rfl

/-- Claim C4 (counterexample): when the cache existence check fails with a
transient backend error, the handler does not proceed down the miss path —
no store (upload) operation occurs; the request is delegated to the
fallback proxy instead. -/
theorem exists_error_no_store_cex :
    (envC4.existsResult.2 = some (GoError.otherError "connection reset")) ∧
    ((serveHTTP envC4 reqEx).events.any CacheEvent.isStore) = false ∧
    (serveHTTP envC4 reqEx).usedFallback = true := by decide

/-- Claim C4 (corrected): when the cache existence check returns a non-nil
error, the error is logged and the request is delegated to the Fallback
Proxy rather than failing the request; no miss-path fetch or store occurs
and no further cache operation is performed. -/
theorem exists_error_falls_back (env : Env) (req : HttpRequest)
    (b : Bool) (e : GoError)
    (hc : isCandidate req = true) (hp : env.probeResult = some 200)
    (he : env.existsResult = (b, some e)) :
    (serveHTTP env req).usedFallback = true ∧
      (serveHTTP env req).writer = serveFallback initialWriter env.fallbackResponse ∧
      (serveHTTP env req).events = [CacheEvent.existsCheck (blobDigestOf req.requestURI)] ∧
      (serveHTTP env req).errorLogs = ["Failed to check if object is in cache"] := by
  simp [serveHTTP, hc, hp, he]

/-- Witness for the corrected C4 at a concrete request and environment. -/
theorem exists_error_falls_back_witness :
    (serveHTTP envC4 reqEx).usedFallback = true ∧
      (serveHTTP envC4 reqEx).writer = serveFallback initialWriter envC4.fallbackResponse ∧
      (serveHTTP envC4 reqEx).events = [CacheEvent.existsCheck (blobDigestOf reqEx.requestURI)] ∧
      (serveHTTP envC4 reqEx).errorLogs = ["Failed to check if object is in cache"] :=
  exists_error_falls_back envC4 reqEx false (GoError.otherError "connection reset")
    (by decide) (by decide) (by decide)

/-- Claim C6 (confirmed): when the authorization probe completes with a
status other than 200, the request is fully delegated to the fallback
proxy: no cache operation of any kind is performed and the response is the
fallback proxy's direct response. -/
theorem probe_non_ok_delegates (env : Env) (req : HttpRequest) (s : Nat)
    (hc : isCandidate req = true) (hp : env.probeResult = some s) (hs : s ≠ 200) :
    (serveHTTP env req).events = [] ∧
      (serveHTTP env req).usedFallback = true ∧
      (serveHTTP env req).writer = serveFallback initialWriter env.fallbackResponse := by
  simp [serveHTTP, hc, hp, hs]

/-- Witness for C6 at a concrete request and a 401 probe. -/
theorem probe_non_ok_delegates_witness :
    (serveHTTP envProbe401 reqEx).events = [] ∧
      (serveHTTP envProbe401 reqEx).usedFallback = true ∧
      (serveHTTP envProbe401 reqEx).writer =
        serveFallback initialWriter envProbe401.fallbackResponse :=
  probe_non_ok_delegates envProbe401 reqEx 401 (by decide) (by decide) (by decide)

/-- Claim C7 (confirmed): a transport-level failure reaching the upstream,
during the authorization probe or during the miss-path fetch, terminates
the request with status 500 and an empty body; the fallback proxy is not
delegated to and no presign or store operation occurs. -/
theorem upstream_unreachable_500 (env : Env) (req : HttpRequest)
    (hc : isCandidate req = true)
    (hfail : env.probeResult = none ∨
      (env.probeResult = some 200 ∧ env.existsResult = (false, none) ∧
        env.fetchResult = none)) :
    (serveHTTP env req).writer.finalStatus = 500 ∧
      (serveHTTP env req).writer.body = [] ∧
      (serveHTTP env req).writer.headers = [] ∧
      (serveHTTP env req).usedFallback = false ∧
      ((serveHTTP env req).events.all
        fun e => !e.isStore && !e.isPresign) = true := by
  rcases hfail with hp | ⟨hp, he, hf⟩
  · simp [serveHTTP, hc, hp, initialWriter, ResponseWriter.writeHeader,
      ResponseWriter.finalStatus, CacheEvent.isStore, CacheEvent.isPresign]
  · simp [serveHTTP, hc, hp, he, hf, initialWriter, ResponseWriter.writeHeader,
      ResponseWriter.finalStatus, CacheEvent.isStore, CacheEvent.isPresign]

/-- Witness for C7 at a concrete request with the probe unreachable. -/
theorem upstream_unreachable_500_witness :
    (serveHTTP envProbeDown reqEx).writer.finalStatus = 500 ∧
      (serveHTTP envProbeDown reqEx).writer.body = [] ∧
      (serveHTTP envProbeDown reqEx).writer.headers = [] ∧
      (serveHTTP envProbeDown reqEx).usedFallback = false ∧
      ((serveHTTP envProbeDown reqEx).events.all
        fun e => !e.isStore && !e.isPresign) = true :=
  upstream_unreachable_500 envProbeDown reqEx (by decide) (Or.inl (by decide))

/-- Claim C9 (confirmed): on the hit path, when the presign operation
returns an error, the request is answered via the fallback proxy: the
handler writes nothing of its own and the client-visible response is the
fallback proxy's response, not an error status. -/
theorem presign_error_falls_back (env : Env) (req : HttpRequest) (e : GoError)
    (hc : isCandidate req = true) (hp : env.probeResult = some 200)
    (he : env.existsResult = (true, none))
    (hs : env.presignResult = Except.error e) :
    (serveHTTP env req).usedFallback = true ∧
      (serveHTTP env req).writer = serveFallback initialWriter env.fallbackResponse ∧
      (serveHTTP env req).writer.finalStatus = env.fallbackResponse.status := by
  simp [serveHTTP, hc, hp, he, hs, serveFallback, initialWriter,
    ResponseWriter.write, ResponseWriter.writeHeader, ResponseWriter.finalStatus]

/-- Witness for C9 at a concrete request and environment. -/
theorem presign_error_falls_back_witness :
    (serveHTTP envPresignErr reqEx).usedFallback = true ∧
      (serveHTTP envPresignErr reqEx).writer =
        serveFallback initialWriter envPresignErr.fallbackResponse ∧
      (serveHTTP envPresignErr reqEx).writer.finalStatus =
        envPresignErr.fallbackResponse.status :=
  presign_error_falls_back envPresignErr reqEx (GoError.otherError "sign fail")
    (by decide) (by decide) (by decide) rfl

/-- Claim C10 (confirmed): on the miss path a failure of the store
(upload) operation is only logged and never changes the client-visible
outcome: the writer's final state is identical whether the upload succeeds
or fails, the body delivered is the upstream body, and no error status is
written. -/
theorem store_failure_invisible (env : Env) (req : HttpRequest) (resp : UpstreamResponse)
    (hc : isCandidate req = true) (hp : env.probeResult = some 200)
    (he : env.existsResult = (false, none)) (hf : env.fetchResult = some resp) :
    (serveHTTP { env with uploadOk := false } req).writer =
        (serveHTTP { env with uploadOk := true } req).writer ∧
      (serveHTTP { env with uploadOk := false } req).errorLogs =
        ["Error uploading blob"] ∧
      (serveHTTP { env with uploadOk := false } req).writer.body = resp.body ∧
      (serveHTTP { env with uploadOk := false } req).writer.finalStatus = 200 := by
  simp [serveHTTP, hc, hp, he, hf, initialWriter, ResponseWriter.write,
    ResponseWriter.writeHeader, ResponseWriter.finalStatus]

/-- Witness for C10 at a concrete request and environment. -/
theorem store_failure_invisible_witness :
    (serveHTTP { envEx with uploadOk := false } reqEx).writer =
        (serveHTTP { envEx with uploadOk := true } reqEx).writer ∧
      (serveHTTP { envEx with uploadOk := false } reqEx).errorLogs =
        ["Error uploading blob"] ∧
      (serveHTTP { envEx with uploadOk := false } reqEx).writer.body = respEx.body ∧
      (serveHTTP { envEx with uploadOk := false } reqEx).writer.finalStatus = 200 :=
  store_failure_invisible envEx reqEx respEx (by decide) (by decide) (by decide) (by decide)

end Bloblo
